import Mathlib

/-!
Verification of the NFG energy-analytics query pipeline
(`src/engine/pipeline_enhanced_v2.py`, `src/engine/pipeline.py`,
`src/nfg_math/equations.py`, `src/semantic/llm_provider.py`,
`src/io/csv_store.py`).

The Python code is shallowly embedded: numbers are modelled as exact
rationals (`ℚ`), Python dicts keyed by strings become association lists
(preserving insertion order, as Python dicts do), exceptions become
`Except`/`Option` results, and the external knowledge source (LLM) and
the sympy expression engine are passed in as explicit functional
parameters, so that each embedded operation is a pure function of its
inputs.
-/

set_option maxRecDepth 4000

namespace NFG

/-! ## String utilities (Python string primitives, re-implemented on
character lists so that every operation reduces in the kernel) -/

/-- Test that `pat` is a prefix of `s` (character lists). -/
def isPrefixChars : List Char → List Char → Bool
  | [], _ => true
  | _ :: _, [] => false
  | a :: as, b :: bs => a == b && isPrefixChars as bs

/-- Python substring test `pat in s`, on character lists. -/
def containsChars (pat : List Char) : List Char → Bool
  | [] => isPrefixChars pat []
  | c :: rest => isPrefixChars pat (c :: rest) || containsChars pat rest

/-- Python substring test `pat in s` on strings (case sensitive). -/
def strContains (s pat : String) : Bool :=
  containsChars pat.data s.data

/-- Python `s.startswith(pre)`. -/
def strStartsWith (s pre : String) : Bool :=
  isPrefixChars pre.data s.data

/-- Python `s.lower()` (ASCII case folding). -/
def pyLower (s : String) : String :=
  String.mk (s.data.map Char.toLower)

/-- Worker for `pyTitle`; the Boolean records whether the previous
character was alphabetic. -/
def pyTitleGo : List Char → Bool → List Char
  | [], _ => []
  | c :: cs, prevAlpha =>
    (if c.isAlpha then (if prevAlpha then c.toLower else c.toUpper) else c)
      :: pyTitleGo cs c.isAlpha

/-- Python `s.title()`. -/
def pyTitle (s : String) : String :=
  String.mk (pyTitleGo s.data false)

/-- Drop leading whitespace from a character list. -/
def dropLeadingWs : List Char → List Char
  | [] => []
  | c :: cs => if c.isWhitespace then dropLeadingWs cs else c :: cs

/-- Python `s.strip()`. -/
def pyStrip (s : String) : String :=
  String.mk ((dropLeadingWs (dropLeadingWs s.data).reverse).reverse)

/-- Python `s.replace(",", "")` as used in `guess_reasonable_value`:
removing every comma is exactly a character filter. -/
def removeCommas (s : String) : String :=
  String.mk (s.data.filter (fun c => c != ','))

/-- Concatenation of strings through their character lists. -/
def strCat (l : List String) : String :=
  String.mk (l.foldr (fun s acc => s.data ++ acc) [])

/-- Numeric value of an ASCII digit. -/
def digitVal (c : Char) : Nat := c.toNat - 48

/-- Interpret a digit list as a natural number (most significant first). -/
def digitsToNat (l : List Char) : Nat :=
  l.foldl (fun acc c => acc * 10 + digitVal c) 0

/-- Decimal digits of `n`, produced with `fuel` recursion steps. -/
def natToDigits : Nat → Nat → List Char
  | 0, _ => []
  | fuel + 1, n =>
    if n < 10 then [Char.ofNat (48 + n)]
    else natToDigits fuel (n / 10) ++ [Char.ofNat (48 + n % 10)]

/-- Render a natural number in decimal. -/
def natToString (n : Nat) : String :=
  String.mk (natToDigits (n + 1) n)

/-- Render an integer in decimal (Python `str(i)` for `int` values). -/
def intToString (i : Int) : String :=
  if i < 0 then String.mk ('-' :: (natToString i.natAbs).data)
  else natToString i.natAbs

/-- Python `int(s)`: optional sign, one or more digits, surrounding
whitespace tolerated; anything else raises `ValueError`, modelled as
`none`. -/
def parseIntChars : List Char → Option Int
  | [] => none
  | '-' :: rest =>
    if !rest.isEmpty && rest.all Char.isDigit then
      some (-(digitsToNat rest : Int))
    else none
  | '+' :: rest =>
    if !rest.isEmpty && rest.all Char.isDigit then
      some ((digitsToNat rest : Int))
    else none
  | l =>
    if l.all Char.isDigit then some ((digitsToNat l : Int)) else none

/-- Python `int(s)` on a string. -/
def pyIntOfString (s : String) : Option Int :=
  parseIntChars (pyStrip s).data

/-- The rational denoted by sign, integer digits and fraction digits. -/
def decimalToRat (neg : Bool) (ip fp : List Char) : ℚ :=
  let n : Int := (digitsToNat ip * 10 ^ fp.length + digitsToNat fp : Nat)
  mkRat (if neg then -n else n) (10 ^ fp.length)

/-- Python `float(s)` restricted to plain decimal notation (optional
sign, digits, at most one point, at least one digit); exponent and
inf/nan forms do not occur in the data this development evaluates. -/
def parseFloatChars (l : List Char) : Option ℚ :=
  let (neg, body) :=
    match l with
    | '-' :: rest => (true, rest)
    | '+' :: rest => (false, rest)
    | _ => (false, l)
  let ip := body.takeWhile Char.isDigit
  let rest := body.dropWhile Char.isDigit
  match rest with
  | [] => if ip.isEmpty then none else some (decimalToRat neg ip [])
  | '.' :: frac =>
    if frac.all Char.isDigit && (!ip.isEmpty || !frac.isEmpty) then
      some (decimalToRat neg ip frac)
    else none
  | _ => none

/-- Python `float(s)` on a string. -/
def pyFloatOfString (s : String) : Option ℚ :=
  parseFloatChars (pyStrip s).data

/-- Attempt to match the regex `-?\d+\.?\d*` at the head of the list,
returning (negative?, integer digits, fraction digits). -/
def matchNumAt (l : List Char) : Option (Bool × List Char × List Char) :=
  let afterDigits := fun (neg : Bool) (body : List Char) =>
    let ds := body.takeWhile Char.isDigit
    if ds.isEmpty then none
    else
      let rest := body.dropWhile Char.isDigit
      let frac :=
        match rest with
        | '.' :: r => r.takeWhile Char.isDigit
        | _ => []
      some (neg, ds, frac)
  match l with
  | '-' :: rest => afterDigits true rest
  | _ => afterDigits false l

/-- Leftmost match of `re.search(r'-?\d+\.?\d*', s)` converted with
`float(...)` (which always succeeds on a matched token). -/
def firstNumericValue : List Char → Option ℚ
  | [] => none
  | c :: rest =>
    match matchNumAt (c :: rest) with
    | some (neg, ip, fp) => some (decimalToRat neg ip fp)
    | none => firstNumericValue rest

/-! ## Data model -/

/-- A year as stored in a data row or carried by an intent: pandas
loads `date_string` either as an integer or as a string. -/
inductive YearVal where
  | int (n : Int)
  | str (s : String)
deriving DecidableEq

/-- Python `int(y)` on a year value (`none` models `ValueError`). -/
def YearVal.toIntOpt : YearVal → Option Int
  | .int n => some n
  | .str s => pyIntOfString s

/-- Python `str(y)` on a year value. -/
def YearVal.render : YearVal → String
  | .int n => intToString n
  | .str s => s

/-- Python truthiness of a year value (`0` and `""` are falsy). -/
def YearVal.truthy : YearVal → Bool
  | .int n => n != 0
  | .str s => !s.isEmpty

/-- The `value` cell of a data row: `None`, the empty string, a numeric
value, or non-numeric text. -/
inductive CellValue where
  | null
  | empty
  | num (q : ℚ)
  | text (s : String)
deriving DecidableEq

/-- The check `row['value'] not in [None, '']` from
`EnhancedPipeline._extract_data_from_csv`. -/
def CellValue.present : CellValue → Bool
  | .null => false
  | .empty => false
  | _ => true

/-- Python `float(cell)`: numeric cells pass through, text cells are
parsed, `None` and `""` raise (modelled as `none`). -/
def CellValue.toFloat : CellValue → Option ℚ
  | .num q => some q
  | .text s => pyFloatOfString s
  | .null => none
  | .empty => none

/-- One row of a loaded CSV table. -/
structure Row where
  propertyName : String
  categoryName : String
  childName : String
  dateString : YearVal
  value : CellValue
  unitName : String
  sourceCsv : Option String
deriving DecidableEq

/-- The structured intent produced by the intent parser. -/
structure Intent where
  metric : Option String
  tech : Option String
  country : Option String
  year : Option YearVal
  fuel : Option String
  network : Option String
  operation : Option String
  confidence : List (String × ℚ)
deriving DecidableEq

/-- Python truthiness of an optional string field. -/
def optStrTruthy : Option String → Bool
  | none => false
  | some s => !s.isEmpty

/-- Python truthiness of an optional year field. -/
def optYearTruthy : Option YearVal → Bool
  | none => false
  | some y => y.truthy

/-- The filter dictionary built by the pipelines (keys `tech`,
`tech_patterns`, `country`, `year`, `date_string`; a `none` field means
the key is absent). -/
structure Filters where
  tech : Option String
  techPatterns : Option (List String)
  country : Option String
  year : Option YearVal
  dateString : Option String
deriving DecidableEq

/-- The optional fallback sub-dict of an equation. -/
structure FallbackEq where
  formula : Option String
  required : List String
deriving DecidableEq

/-- An equation dict as produced by `determine_equation` (a `unit` field
of `none` means the key is absent). -/
structure Equation where
  formula : Option String
  required : List String
  unit : Option String
  fallback : Option FallbackEq
deriving DecidableEq

/-- Python truthiness of the `formula` entry of an equation dict. -/
def formulaTruthy : Option String → Bool
  | some f => !f.isEmpty
  | none => false

/-! ## Equation registry (`src/nfg_math/equations.py`)

The registry state carries the equation cache (`self.equations`) and an
instrumentation counter of external knowledge-source calls issued via
`determine_equation`, used to state the no-re-query claims.  The LLM
itself is the function parameter `determineEq`; a result of `none`
models both an exception and a falsy return value. -/

structure RegState where
  equations : List (String × Equation)
  llmCalls : Nat
deriving DecidableEq

/-- `EquationRegistry.get_equation` (equations.py:82).  The pipelines
always attach an LLM provider, so the `self.llm_provider is None`
branch is not reachable from `answer_query`.  A returned `none` models
the `{}` fallthrough result. -/
def getEquation (determineEq : String → Option Equation) (st : RegState)
    (metric : String) : Option Equation × RegState :=
  match List.lookup metric st.equations with
  | some e => (some e, st)
  | none =>
    let st1 : RegState := ⟨st.equations, st.llmCalls + 1⟩
    match determineEq metric with
    | some e =>
      if formulaTruthy e.formula then
        (some e, ⟨st1.equations ++ [(metric, e)], st1.llmCalls⟩)
      else (none, st1)
    | none => (none, st1)

/-- The static metric-to-unit table of the first `generate_unit`
definition (equations.py:131). -/
def unitMap : List (String × String) :=
  [("LCOE", "USD/MWh"), ("GENERATION_GWh", "GWh"), ("CAPACITY_MW", "MW"),
   ("CAPACITY_FACTOR", "%"), ("EMISSIONS_tCO2", "tCO2")]

/-- The FIRST `generate_unit` definition (equations.py:111).  In Python
a later method definition with the same name inside the same class body
replaces an earlier one, so this definition is shadowed by
`generateUnitV2` below and never executes; it is embedded to exhibit
the static-table stage the specification describes. -/
def generateUnitV1 (determineEq : String → Option Equation) (st : RegState)
    (metric : String) : String × RegState :=
  let p := getEquation determineEq st metric
  match p.1 with
  | none => ("Unknown", p.2)
  | some e =>
    match e.unit with
    | some u => (u, p.2)
    | none => ((List.lookup metric unitMap).getD "Unknown", p.2)

/-- The unit question `generate_unit` sends to the knowledge source. -/
def unitQuery (metric : String) : String :=
  strCat ["What is the standard unit for ", metric, " in energy analytics?"]

/-- The SECOND, effective `generate_unit` definition (equations.py:253):
embedded unit, else knowledge-source answer accepted when non-empty and
shorter than 20 characters, else "unknown".  `complete` is the raw LLM
completion (`none` models an exception). -/
def generateUnitV2 (determineEq : String → Option Equation)
    (complete : String → Option String) (st : RegState)
    (metric : String) : String × RegState :=
  let p := getEquation determineEq st metric
  let ask : String :=
    match complete (unitQuery metric) with
    | some unit => if !unit.isEmpty && unit.length < 20 then pyStrip unit else "unknown"
    | none => "unknown"
  match p.1 with
  | some e =>
    match e.unit with
    | some u => (u, p.2)
    | none => (ask, p.2)
  | none => (ask, p.2)

/-- Variable lookup in the bound-variable dict. -/
def lookupVar (vars : List (String × ℚ)) (k : String) : Option ℚ :=
  List.lookup k vars

/-- `EquationRegistry.evaluate` (equations.py:141).  `sympyEval` stands
for `sympy.sympify(formula, locals).evalf(subs=vars)` coerced with
`float`; `none` models any exception raised there.  Variable dicts are
association lists in insertion order, matching Python dict iteration. -/
def evaluate (determineEq : String → Option Equation)
    (sympyEval : String → List (String × ℚ) → Option ℚ)
    (st : RegState) (metric : String)
    (vars : List (String × ℚ)) : Option ℚ × RegState :=
  if pyLower metric == "capacity_mw" then
    match vars.find? (fun kv =>
        strContains (pyLower kv.1) "capacity" || strContains (pyLower kv.1) "generator") with
    | some kv => (some kv.2, st)
    | none => (some (500 : ℚ), st)
  else
    let p := getEquation determineEq st metric
    let st1 := p.2
    match p.1 with
    | none => (none, st1)
    | some e =>
      if !(formulaTruthy e.formula) then (none, st1)
      else
        let formula0 := e.formula.getD ""
        let missing := e.required.filter (fun v => (lookupVar vars v).isNone)
        let sel : Option String :=
          if missing.isEmpty then some formula0
          else
            match e.fallback with
            | some fb =>
              if formulaTruthy fb.formula then
                if (fb.required.filter (fun v => (lookupVar vars v).isNone)).isEmpty then
                  some (fb.formula.getD "")
                else none
              else none
            | none => none
        match sel with
        | none => (none, st1)
        | some formula =>
          if (strContains formula "SUM(" || strContains formula "sum(") &&
              vars.any (fun kv => strStartsWith kv.1 "UNIT_") then
            ((vars.find? (fun kv => strStartsWith kv.1 "UNIT_")).map (·.2), st1)
          else if (lookupVar vars formula).isSome then
            (lookupVar vars formula, st1)
          else if strContains formula "for i=" &&
              (vars.find? (fun kv => strContains formula kv.1)).isSome then
            ((vars.find? (fun kv => strContains formula kv.1)).map (·.2), st1)
          else
            let raw : Option ℚ :=
              match sympyEval formula vars with
              | some r => some r
              | none =>
                (vars.find? (fun kv =>
                    strStartsWith kv.1 "UNIT_" || strStartsWith kv.1 "GENERATOR_")).map (·.2)
            match raw with
            | none => (none, st1)
            | some r =>
              (some (if metric == "CAPACITY_FACTOR" then
                (if r < 1 then r * 100 else r) else r), st1)

/-! ## LLM provider value fallbacks (`src/semantic/llm_provider.py`)

`LPState` is the provider's in-memory `value_cache` plus the presence
of an API key; `completion` stands for `generate_completion` on the
prompt built for the request (`none` models a raised exception). -/

structure LPState where
  apiKey : Bool
  valueCache : List (String × ℚ)
deriving DecidableEq

/-- Rendering of `filters.get(key, '')` for the string fields. -/
def filterField (o : Option String) : String := o.getD ""

/-- Rendering of `filters.get('year', '')` inside an f-string. -/
def filterYearField (o : Option YearVal) : String :=
  match o with
  | none => ""
  | some y => y.render

/-- The cache key of `get_fallback_value` (llm_provider.py:118). -/
def fallbackCacheKey (var : String) (f : Filters) : String :=
  strCat [var, "_", filterField f.tech, filterField f.country, filterYearField f.year]

/-- The cache key of `guess_reasonable_value` (llm_provider.py:582). -/
def guessCacheKey (var : String) (f : Filters) : String :=
  strCat ["guess_", var, "_", filterField f.tech, filterField f.country,
    filterYearField f.year]

/-- `LLMProvider.get_fallback_value` (llm_provider.py:101).  The
`float` conversion of a regex-matched token never raises, so the inner
`except ValueError` branch is unreachable. -/
def getFallbackValue (completion : Option String) (st : LPState)
    (var : String) (f : Filters) : Option ℚ × LPState :=
  if !st.apiKey then (none, st)
  else
    let key := fallbackCacheKey var f
    match List.lookup key st.valueCache with
    | some v => (some v, st)
    | none =>
      match completion with
      | none => (none, st)
      | some resp =>
        match firstNumericValue (pyStrip resp).data with
        | some v => (some v, ⟨st.apiKey, st.valueCache ++ [(key, v)]⟩)
        | none => (none, st)

/-- The last-resort name-pattern defaults of `guess_reasonable_value`
(llm_provider.py:633); the Python literal 0.08 is the rational 8/100. -/
def heuristicDefault (var : String) : ℚ :=
  if strContains var "CAPACITY" && strContains var "MW" then 100
  else if strContains var "GENERATION" && strContains var "GWh" then 500
  else if strContains var "COST" && strContains var "kUSD" then 1000
  else if strContains var "RATE" then mkRat 8 100
  else 100

/-- The response-parsing stage of `guess_reasonable_value`
(llm_provider.py:602): comma removal, regex scan for the first numeric
token, then the aggressive digits-and-points extraction; `none` when
the knowledge-source call raised (`completion = none`) or nothing
parseable was found. -/
def guessParsed (completion : Option String) : Option ℚ :=
  match completion with
  | none => none
  | some resp =>
    let clean := removeCommas (pyStrip resp)
    match firstNumericValue clean.data with
    | some v => some v
    | none =>
      let digitsOnly := clean.data.filter (fun c => c.isDigit || c == '.')
      if digitsOnly.isEmpty then none else parseFloatChars digitsOnly

/-- `LLMProvider.guess_reasonable_value` (llm_provider.py:564). -/
def guessReasonableValue (completion : Option String) (st : LPState)
    (var : String) (f : Filters) : Option ℚ × LPState :=
  if !st.apiKey then (none, st)
  else
    let key := guessCacheKey var f
    match List.lookup key st.valueCache with
    | some v => (some v, st)
    | none =>
      match guessParsed completion with
      | some v => (some v, ⟨st.apiKey, st.valueCache ++ [(key, v)]⟩)
      | none =>
        let v := heuristicDefault var
        (some v, ⟨st.apiKey, st.valueCache ++ [(key, v)]⟩)

/-! ## Enhanced pipeline (`src/engine/pipeline_enhanced_v2.py`)

The pipeline's construction-time maps are embedded as their default
values (the catalog attributes are absent and the LLM enrichment calls
fail closed in the scenarios settled here, exactly the fallback branch
of `_get_tech_mappings` and friends). -/

/-- Default technology patterns (pipeline_enhanced_v2.py:78). -/
def techMapDefault : List (String × List String) :=
  [("NUCLEAR", ["Nuclear"]),
   ("WIND", ["Wind", "onshore wind", "offshore wind"]),
   ("SOLAR", ["Solar", "PV", "photovoltaic"]),
   ("HYDRO", ["Hydro", "hydroelectric"]),
   ("CCGT", ["CCGT", "gas turbine", "combined cycle"])]

/-- Default country code map (pipeline_enhanced_v2.py:109). -/
def countryMapDefault : List (String × String) :=
  [("BE", "BE"), ("FR", "FR"), ("DE", "DE"), ("UK", "UK"), ("ES", "ES"),
   ("IT", "IT")]

/-- Display name, format spec and description of a metric. -/
structure MetricInfo where
  fullName : String
  format : String
  description : String
deriving DecidableEq

/-- Default metric info (pipeline_enhanced_v2.py:141); the format specs
are the Python strings with braces escaped. -/
def metricInfoDefault : List (String × MetricInfo) :=
  [("LCOE", ⟨"Levelized Cost of Electricity", "\x7b:.2f\x7d",
    "The average net present cost of electricity generation for a generating plant over its lifetime"⟩),
   ("CAPACITY_FACTOR", ⟨"Capacity Factor", "\x7b:.1%\x7d",
    "The ratio of actual electrical energy output to the maximum possible electrical energy output over a given time period"⟩),
   ("EMISSIONS_INTENSITY", ⟨"Emissions Intensity", "\x7b:.1f\x7d",
    "The amount of greenhouse gases emitted per unit of electricity generated"⟩),
   ("CAPEX", ⟨"Capital Expenditure", "\x7b:.1f\x7d",
    "The funds used by an organization to acquire, upgrade, and maintain physical assets"⟩),
   ("OPEX", ⟨"Operational Expenditure", "\x7b:.1f\x7d",
    "The ongoing costs for running a business, system, or product"⟩)]

/-- Default property mappings (pipeline_enhanced_v2.py:196). -/
def propertyMappingsDefault : List (String × List String) :=
  [("TOTAL_GEN_COST_kUSD", ["Total Generation Cost"]),
   ("GENERATION_GWh", ["Generation"]),
   ("CAPACITY_MW", ["Installed Capacity", "Capacity"]),
   ("CAPEX_USD_per_kW", ["CAPEX", "Capital Cost"]),
   ("OPEX_FIXED_USD_per_kWyr", ["FO&M Cost", "Fixed O&M Cost"]),
   ("OPEX_VAR_USD_per_MWh", ["VO&M Cost", "Variable O&M Cost"]),
   ("EMISSIONS_tCO2", ["Emissions", "CO2 Emissions"])]

/-- Long country names used by the narrative
(pipeline_enhanced_v2.py:482). -/
def countryNames : List (String × String) :=
  [("BE", "Belgium"), ("DE", "Germany"), ("FR", "France"),
   ("UK", "United Kingdom"), ("ES", "Spain"), ("IT", "Italy")]

/-- The year component of the combined filter
(pipeline_enhanced_v2.py:256): `int(year)` is attempted on the filter
value; on success the stored date is compared against the `int`, on
`ValueError`/`TypeError` against `str(year)`. -/
def yearMatches (year : Option YearVal) (ds : YearVal) : Bool :=
  match year with
  | none => true
  | some y =>
    match y.toIntOpt with
    | some n => ds == YearVal.int n
    | none => ds == YearVal.str y.render

/-- The combined row filter of `EnhancedPipeline._extract_data_from_csv`
(pipeline_enhanced_v2.py:236): property-name equality, any technology
pattern contained case-insensitively in `category_name`, country as the
regex `^CODE[0-9]` on `child_name`, and the year filter. -/
def rowMatches (techMap : List (String × List String))
    (countryMap : List (String × String)) (f : Filters)
    (propertyName : String) (r : Row) : Bool :=
  let techOk :=
    match f.tech with
    | none => true
    | some t =>
      match List.lookup t techMap with
      | none => true
      | some [] => true
      | some pats =>
        pats.any (fun pat => strContains (pyLower r.categoryName) (pyLower pat))
  let countryOk :=
    match f.country with
    | none => true
    | some c =>
      match List.lookup c countryMap with
      | none => true
      | some code =>
        strStartsWith r.childName code &&
          (match (r.childName.data.drop code.length).head? with
           | some d => d.isDigit
           | none => false)
  (r.propertyName == propertyName) && techOk && countryOk &&
    yearMatches f.year r.dateString

/-- One extracted data point (the dict built at
pipeline_enhanced_v2.py:290). -/
structure Item where
  source : String
  property : String
  value : ℚ
  unit : String
  tech : String
  facility : String
  year : YearVal
deriving DecidableEq

/-- The result loop of `_extract_data_from_csv`
(pipeline_enhanced_v2.py:281): a row whose `value` is `None`/empty is
skipped, a row whose `value` fails `float` coercion is skipped with a
logged warning, every other row becomes an item. -/
def buildItems : List Row → List Item
  | [] => []
  | r :: rest =>
    if r.value.present then
      match r.value.toFloat with
      | some v =>
        ⟨r.sourceCsv.getD "systemgenerators.csv", r.propertyName, v,
          r.unitName, r.categoryName, r.childName, r.dateString⟩
          :: buildItems rest
      | none => buildItems rest
    else buildItems rest

/-- `EnhancedPipeline._extract_data_from_csv` on one table. -/
def extractDataFromCsv (techMap : List (String × List String))
    (countryMap : List (String × String)) (rows : List Row)
    (f : Filters) (propertyName : String) : List Item :=
  buildItems (rows.filter (rowMatches techMap countryMap f propertyName))

/-- Python uncaught-exception kinds relevant here. -/
inductive PyError where
  | typeError
deriving DecidableEq

/-- Python `acc + v` for a raw CSV cell: adding a non-numeric cell
raises `TypeError`. -/
def pyAddCell (acc : ℚ) : CellValue → Except PyError ℚ
  | .num q => .ok (acc + q)
  | _ => .error PyError.typeError

/-- The legacy aggregation `sum(row.get('value', 0) for row in rows)`
(`Pipeline.answer_query`, pipeline.py:138): no numeric coercion is
attempted, so one non-numeric `value` cell aborts the whole sum with
`TypeError`, which propagates out of `answer_query`. -/
def legacySumValues (rows : List Row) : Except PyError ℚ :=
  rows.foldlM (fun acc r => pyAddCell acc r.value) 0

/-- A provenance citation (the dicts built at
pipeline_enhanced_v2.py:407 and 431; a `none` optional field means the
key is absent). -/
structure Citation where
  source : String
  property : String
  value : ℚ
  unit : String
  tech : Option String
  facility : Option String
  year : Option YearVal
deriving DecidableEq

/-- The deduplication key of `answer_query` step 6
(pipeline_enhanced_v2.py:449): the fields (source, property, tech,
facility, year) rendered with `str`, with "" substituted for a missing
or `None` field. -/
def citationKey (c : Citation) : List String :=
  [c.source, c.property,
   (match c.tech with | some t => t | none => ""),
   (match c.facility with | some fa => fa | none => ""),
   (match c.year with | some y => y.render | none => "")]

/-- Worker for `dedupCitations`, carrying the `seen_citations` set. -/
def dedupGo : List Citation → List (List String) → List Citation
  | [], _ => []
  | c :: rest, seen =>
    let k := citationKey c
    if seen.contains k then dedupGo rest seen
    else c :: dedupGo rest (seen ++ [k])

/-- Step 6 of `answer_query`: keep the first citation for each key. -/
def dedupCitations (cs : List Citation) : List Citation := dedupGo cs []

/-- The per-table candidate-property loop
(pipeline_enhanced_v2.py:379): first property with data wins. -/
def tryProperties (techMap : List (String × List String))
    (countryMap : List (String × String)) (rows : List Row)
    (f : Filters) : List String → List Item
  | [] => []
  | p :: ps =>
    let d := extractDataFromCsv techMap countryMap rows f p
    if d.isEmpty then tryProperties techMap countryMap rows f ps else d

/-- The fallback loop over the remaining tables
(pipeline_enhanced_v2.py:387): first table and property with data
wins. -/
def tryTables (techMap : List (String × List String))
    (countryMap : List (String × String)) (f : Filters)
    (props : List String) : List (String × List Row) → List Item
  | [] => []
  | (_, rows) :: rest =>
    let d := tryProperties techMap countryMap rows f props
    if d.isEmpty then tryTables techMap countryMap f props rest else d

/-- Resolve one required variable against the loaded tables:
`systemgenerators.csv` first, then the other tables in load order. -/
def resolveVariable (techMap : List (String × List String))
    (countryMap : List (String × String))
    (propertyMappings : List (String × List String))
    (csv : List (String × List Row)) (f : Filters) (var : String) :
    List Item :=
  let props := (List.lookup var propertyMappings).getD [var]
  let sysData :=
    match List.lookup "systemgenerators.csv" csv with
    | some rows => tryProperties techMap countryMap rows f props
    | none => []
  if !sysData.isEmpty then sysData
  else
    tryTables techMap countryMap f props
      (csv.filter (fun t => t.1 != "systemgenerators.csv"))

/-- Rendering of `filters.get(key, "Unknown")`. -/
def filterOrUnknown (o : Option String) : String := o.getD "Unknown"

/-- Rendering of `filters.get("year", "Unknown")`. -/
def yearOrUnknown (o : Option YearVal) : YearVal :=
  o.getD (YearVal.str "Unknown")

/-- Step 4 of `answer_query` (pipeline_enhanced_v2.py:369): per
required variable, extract and sum matching data (one citation per
contributing row) or bind the catalog fallback value (one fallback
citation, without a facility field).  `catalogFallback` is Modelled
from the spec: `semantic/variable_catalog.py`
(`VariableCatalog.get_fallback_value`) is not among the sources; per
spec section 4.2 the catalog returns a number for every canonical
variable. -/
def resolveAllVars (techMap : List (String × List String))
    (countryMap : List (String × String))
    (propertyMappings : List (String × List String))
    (catalogFallback : String → Filters → ℚ)
    (csv : List (String × List Row)) (f : Filters) :
    List String → List (String × ℚ) × List Citation
  | [] => ([], [])
  | var :: rest =>
    let items := resolveVariable techMap countryMap propertyMappings csv f var
    let varAndCits :=
      if !items.isEmpty then
        (items.foldl (fun acc it => acc + it.value) 0,
         items.map (fun it =>
           (⟨it.source, it.property, it.value, it.unit, some it.tech,
             some it.facility, some it.year⟩ : Citation)))
      else
        let fbv := catalogFallback var f
        (fbv,
         [(⟨"fallback_values", var, fbv, "fallback",
            some (filterOrUnknown f.tech), none,
            some (yearOrUnknown f.year)⟩ : Citation)])
    let restPair := resolveAllVars techMap countryMap propertyMappings
      catalogFallback csv f rest
    ((var, varAndCits.1) :: restPair.1, varAndCits.2 ++ restPair.2)

/-- Left-pad with zeros to width `w`. -/
def padLeftZeros (w : Nat) (s : String) : String :=
  strCat [String.mk (List.replicate (w - s.length) '0'), s]

/-- Fixed-point decimal rendering of a rational with `dp` digits after
the point (round half up; the bit-exact float rounding of CPython is
outside the rational model, and no claim depends on the digits). -/
def fmtFixed (dp : Nat) (q : ℚ) : String :=
  let m : Int := ⌊q * ((10 : ℚ) ^ dp) + mkRat 1 2⌋
  let sign := if m < 0 then "-" else ""
  let a := m.natAbs
  if dp == 0 then strCat [sign, natToString a]
  else
    strCat [sign, natToString (a / 10 ^ dp), ".",
      padLeftZeros dp (natToString (a % 10 ^ dp))]

/-- Python `format_spec.format(result)` for the format specs occurring
in the pipeline; formatting `None` with any of them raises
`TypeError` (`None.__format__` accepts only an empty spec). -/
def applyFormat (spec : String) (r : Option ℚ) : Except PyError String :=
  match r with
  | none => .error PyError.typeError
  | some q =>
    if spec == "\x7b:.2f\x7d" then .ok (fmtFixed 2 q)
    else if spec == "\x7b:.1%\x7d" then .ok (strCat [fmtFixed 1 (q * 100), "%"])
    else .ok (fmtFixed 1 q)

/-- The result-formatting dispatch of `answer_query` step 7
(pipeline_enhanced_v2.py:466): metric-info format spec, else ".2f" for
LCOE/LCOS, else ".1%" when the metric name contains "FACTOR", else
".1f".  Every branch formats `result`, so a `None` result raises
`TypeError` on all of them. -/
def formatResult (metricInfo : List (String × MetricInfo))
    (metric : String) (r : Option ℚ) : Except PyError String :=
  match List.lookup metric metricInfo with
  | some info => applyFormat info.format r
  | none =>
    if metric == "LCOE" || metric == "LCOS" then applyFormat "\x7b:.2f\x7d" r
    else if strContains metric "FACTOR" then applyFormat "\x7b:.1%\x7d" r
    else applyFormat "\x7b:.1f\x7d" r

/-- Join with ", " (Python `", ".join`). -/
def joinComma : List String → String
  | [] => ""
  | [s] => s
  | s :: rest => strCat [s, ", ", joinComma rest]

/-- First-occurrence deduplication of strings; Python builds a `set`
here whose iteration order is unspecified, first-occurrence order is
one faithful refinement. -/
def dedupStringsGo : List String → List String → List String
  | [], _ => []
  | s :: rest, seen =>
    if seen.contains s then dedupStringsGo rest seen
    else s :: dedupStringsGo rest (seen ++ [s])

/-- Deduplicate a string list, keeping first occurrences. -/
def dedupStrings (l : List String) : List String := dedupStringsGo l []

/-- Technology insight sentences (pipeline_enhanced_v2.py:521). -/
def techInsightOf (tech : String) : String :=
  if tech == "NUCLEAR" then
    "Nuclear power has high capital costs but low operating costs and zero direct carbon emissions."
  else if tech == "WIND" then
    "Wind power costs have been decreasing significantly in recent years due to technological improvements."
  else if tech == "SOLAR" then
    "Solar power costs have fallen dramatically in the past decade making it increasingly competitive."
  else ""

/-- Country insight sentences (pipeline_enhanced_v2.py:532). -/
def countryInsightOf (country : String) : String :=
  if country == "BE" then
    "Belgium has a diverse energy mix with significant nuclear capacity."
  else if country == "DE" then
    "Germany has been transitioning away from nuclear towards renewable energy sources."
  else if country == "FR" then
    "France has one of the highest shares of nuclear in its electricity mix globally."
  else ""

/-- The structured narrative of the response
(pipeline_enhanced_v2.py:540). -/
structure Narrative where
  summary : String
  dataSource : String
  methodology : String
  context : String
  techInsights : String
  countryInsights : String
deriving DecidableEq

/-- The response dict assembled by `answer_query`; a `none` field means
the key is absent (the early error returns carry only `error`,
`metric`, `scope`, `result`, `citations`). -/
structure Response where
  error : Option String
  metric : Option String
  unit : Option String
  scope : Intent
  result : Option ℚ
  formattedResult : Option String
  method : Option String
  inputs : List (String × ℚ)
  citations : List Citation
  narrative : Option Narrative
  notes : Option String
deriving DecidableEq

/-- Narrative assembly of `answer_query` step 7
(pipeline_enhanced_v2.py:476). -/
def buildNarrative (metricInfo : List (String × MetricInfo))
    (metric : String) (f : Filters) (formattedResult : String)
    (unit : String) (uniqueCitations : List Citation)
    (formula : Option String) : Narrative :=
  let techName := if optStrTruthy f.tech then pyTitle (f.tech.getD "") else "Unknown"
  let countryName := if optStrTruthy f.country then f.country.getD "" else "Unknown"
  let yearValue :=
    if optYearTruthy f.year then (f.year.getD (YearVal.str "")).render
    else "Unknown"
  let countryLong := (List.lookup countryName countryNames).getD countryName
  let metricFull :=
    match List.lookup metric metricInfo with
    | some i => i.fullName
    | none => "Unknown Metric"
  let metricDescription :=
    match List.lookup metric metricInfo with
    | some i => i.description
    | none => ""
  let summary := strCat ["The ", metricFull, " for ", techName, " in ",
    countryLong, " for ", yearValue, " is ", formattedResult, " ", unit, "."]
  let dataSource :=
    if uniqueCitations.all (fun c => strStartsWith c.source "fallback") then
      "This result is based on typical values as no specific data was found."
    else
      strCat ["This result is calculated from data in: ",
        joinComma (dedupStrings (uniqueCitations.filterMap (fun c =>
          if strStartsWith c.source "fallback" then none else some c.source))),
        "."]
  let methodology := strCat ["Calculated using: ", formula.getD "Unknown formula"]
  let context :=
    if metricDescription == "" then ""
    else strCat [metricDescription, " for ", techName, "."]
  let techInsights :=
    if optStrTruthy f.tech then techInsightOf (f.tech.getD "") else ""
  let countryInsights :=
    if optStrTruthy f.country then countryInsightOf (f.country.getD "") else ""
  ⟨summary, dataSource, methodology, context, techInsights, countryInsights⟩

/-- Rendering of the filter dict inside the `notes` f-string; the exact
Python dict repr is abstracted to a stable field listing (no claim
depends on this text). -/
def renderFilters (f : Filters) : String :=
  strCat ["tech=", filterField f.tech, " country=", filterField f.country,
    " year=", filterYearField f.year]

/-- `EnhancedPipeline.answer_query` (pipeline_enhanced_v2.py:302).
External collaborators are parameters: `parse` is the intent parser,
`determineEq` the LLM equation discovery, `sympyEval` the sympy engine,
`complete` the raw LLM completion used by `generate_unit`, and
`catalogFallback` the variable catalog's fallback-value supplier.  A
returned `Except.error` models a Python exception escaping
`answer_query`. -/
def answerQueryV2 (parse : String → Intent)
    (determineEq : String → Option Equation)
    (sympyEval : String → List (String × ℚ) → Option ℚ)
    (complete : String → Option String)
    (catalogFallback : String → Filters → ℚ)
    (techMap : List (String × List String))
    (countryMap : List (String × String))
    (metricInfo : List (String × MetricInfo))
    (propertyMappings : List (String × List String))
    (csv : List (String × List Row))
    (st : RegState) (text : String) : Except PyError Response :=
  let intent := parse text
  if !(optStrTruthy intent.metric) then
    .ok ⟨some "Could not determine metric from query", none, none, intent,
      none, none, none, [], [], none, none⟩
  else
    let metric := intent.metric.getD ""
    let eqAndSt := getEquation determineEq st metric
    let requiredVars := match eqAndSt.1 with | some e => e.required | none => []
    if requiredVars.isEmpty then
      .ok ⟨some (strCat ["Could not determine equation for metric: ", metric]),
        some metric, none, intent, none, none, none, [], [], none, none⟩
    else
      let f : Filters :=
        ⟨(if optStrTruthy intent.tech &&
              (List.lookup (intent.tech.getD "") techMap).isSome
          then intent.tech else none),
         (if optStrTruthy intent.tech &&
              (List.lookup (intent.tech.getD "") techMap).isSome
          then List.lookup (intent.tech.getD "") techMap else none),
         (if optStrTruthy intent.country &&
              (List.lookup (intent.country.getD "") countryMap).isSome
          then intent.country else none),
         (if optYearTruthy intent.year then intent.year else none),
         (if optYearTruthy intent.year then
            some ((intent.year.getD (YearVal.str "")).render) else none)⟩
      let varsCits := resolveAllVars techMap countryMap propertyMappings
        catalogFallback csv f requiredVars
      let resAndSt := evaluate determineEq sympyEval eqAndSt.2 metric varsCits.1
      let unitAndSt := generateUnitV2 determineEq complete resAndSt.2 metric
      let uniqueCitations := dedupCitations varsCits.2
      match formatResult metricInfo metric resAndSt.1 with
      | .error e => .error e
      | .ok formattedResult =>
        let formula := eqAndSt.1.bind (fun e => e.formula)
        .ok ⟨none, some metric, some unitAndSt.1, intent, resAndSt.1,
          some formattedResult, some (formula.getD "Unknown formula"),
          varsCits.1, uniqueCitations,
          some (buildNarrative metricInfo metric f formattedResult
            unitAndSt.1 uniqueCitations formula),
          some (strCat ["Using data from CSV files with filters: ",
            renderFilters f])⟩

/-! ## Concrete scenario fixtures used by the theorems below -/

/-- An intent with no extracted metric. -/
def intentNoMetric : Intent :=
  ⟨none, none, none, some (YearVal.int 2050), none, none, none, []⟩

/-- An intent that resolved the metric LCOE and nothing else. -/
def intentLcoe : Intent :=
  ⟨some "LCOE", none, none, none, none, none, none, []⟩

/-- An LCOE equation whose formula the sympy stage will fail on. -/
def eqLcoe : Equation :=
  ⟨some "CAPEX/GEN", ["CAPEX_USD_per_kW"], some "USD/MWh", none⟩

/-- A knowledge source that resolves only LCOE. -/
def detEqLcoe : String → Option Equation :=
  fun m => if m == "LCOE" then some eqLcoe else none

/-- An empty filter set. -/
def noFilters : Filters := ⟨none, none, none, none, none⟩

/-- A knowledge source that answers every equation request with an
explicitly empty result (the dict `{}`: no formula, no required
variables). -/
def detEqEmpty : String → Option Equation := fun _ => some ⟨none, [], none, none⟩

/-- An equation carrying no `unit` key. -/
def eqNoUnit : Equation := ⟨some "X/Y", ["X", "Y"], none, none⟩

/-- A registry state with an LCOE equation cached without a unit. -/
def stLcoeNoUnit : RegState := ⟨[("LCOE", eqNoUnit)], 0⟩

/-- A data row whose year was loaded as the string "2050". -/
def rowGen2050 : Row :=
  ⟨"Generation", "Wind", "FR01_Wind", YearVal.str "2050", CellValue.num 100,
   "GWh", none⟩

/-- A year filter carrying the integer 2050. -/
def yearIntFilter : Filters := ⟨none, none, none, some (YearVal.int 2050), none⟩

/-- A year filter carrying the string "2050". -/
def yearStrFilter : Filters := ⟨none, none, none, some (YearVal.str "2050"), none⟩

/-- The capacity-factor equation used in the scaling scenario. -/
def eqCapacityFactor : Equation :=
  ⟨some "GENERATION_GWh*1000/(CAPACITY_MW*8760)",
   ["GENERATION_GWh", "CAPACITY_MW"], some "%", none⟩

/-- A registry state with the capacity-factor equation cached. -/
def stCapacityFactor : RegState := ⟨[("CAPACITY_FACTOR", eqCapacityFactor)], 0⟩

/-- Bindings for both capacity-factor inputs. -/
def varsCapacityFactor : List (String × ℚ) :=
  [("GENERATION_GWh", 100), ("CAPACITY_MW", 50)]

/-- A matching row with a numeric value 5. -/
def rowNum5 : Row :=
  ⟨"Generation", "Wind", "FR01_W", YearVal.int 2050, CellValue.num 5, "GWh", none⟩

/-- A matching row whose value cell holds non-numeric text. -/
def rowBad : Row :=
  ⟨"Generation", "Wind", "FR02_W", YearVal.int 2050, CellValue.text "N/A",
   "GWh", none⟩

/-- A matching row with a numeric value 7. -/
def rowNum7 : Row :=
  ⟨"Generation", "Wind", "FR03_W", YearVal.int 2050, CellValue.num 7, "GWh", none⟩

/-- A data citation with all optional fields present. -/
def citA : Citation :=
  ⟨"systemgenerators.csv", "Generation", 100, "GWh", some "Wind",
   some "FR01_Wind", some (YearVal.int 2050)⟩

/-- The same citation with the facility field absent. -/
def citB : Citation :=
  ⟨"systemgenerators.csv", "Generation", 100, "GWh", some "Wind", none,
   some (YearVal.int 2050)⟩

/-- A citation agreeing with `citA` on every key field but differing in
the non-key fields value and unit. -/
def citC : Citation :=
  ⟨"systemgenerators.csv", "Generation", 250, "MWh", some "Wind",
   some "FR01_Wind", some (YearVal.int 2050)⟩

/-! ## Helper lemmas -/

/-- Looking up a key in an append skips a prefix that lacks it. -/
theorem lookup_append_of_none {β : Type} (a : String)
    (l1 l2 : List (String × β)) (h : List.lookup a l1 = none) :
    List.lookup a (l1 ++ l2) = List.lookup a l2 := by
  induction l1 with
  | nil => rfl
  | cons kv rest ih =>
    rcases kv with ⟨k, b⟩
    cases hk : (a == k) with
    | true => simp [List.lookup, hk] at h
    | false =>
      simp only [List.lookup, hk] at h
      simpa [List.lookup, hk] using ih h

/-- `buildItems` distributes over list append. -/
theorem buildItems_append (l1 l2 : List Row) :
    buildItems (l1 ++ l2) = buildItems l1 ++ buildItems l2 := by
  induction l1 with
  | nil => rfl
  | cons r rest ih =>
    simp only [List.cons_append, buildItems]
    cases hp : r.value.present
    · simp [hp, ih]
    · cases hf : r.value.toFloat <;> simp [hp, hf, ih]

/-- A row failing `float` coercion contributes no item. -/
theorem buildItems_drop (bad : Row) (l : List Row)
    (hbad : bad.value.toFloat = none) :
    buildItems (bad :: l) = buildItems l := by
  simp only [buildItems]
  cases hp : bad.value.present <;> simp [hp, hbad]

/-! ## Claim theorems -/

/-- C1: the orchestrator is claimed to turn every stage failure into a
structured `result: null` response and never raise past its boundary,
including when the evaluator returns null and the result is then
formatted.  The first conjunct shows the intent-failure stage does
return the structured error object; the second shows that when the
evaluator returns null (here: the sympy stage fails and no recovery
variable is bound), `answer_query` raises `TypeError` while formatting
the null result, escaping its boundary. -/
theorem C1_orchestrator_raises_formatting_null_result :
    (answerQueryV2 (fun _ => intentNoMetric) detEqLcoe (fun _ _ => none)
        (fun _ => none) (fun _ _ => 1000) techMapDefault countryMapDefault
        metricInfoDefault propertyMappingsDefault [] ⟨[], 0⟩ "query" =
      .ok ⟨some "Could not determine metric from query", none, none,
        intentNoMetric, none, none, none, [], [], none, none⟩) ∧
    (answerQueryV2 (fun _ => intentLcoe) detEqLcoe (fun _ _ => none)
        (fun _ => none) (fun _ _ => 1000) techMapDefault countryMapDefault
        metricInfoDefault propertyMappingsDefault [] ⟨[], 0⟩ "query" =
      .error PyError.typeError) :=
  ⟨rfl, rfl⟩

/-- C2 counterexample: when the first resolution of a metric produces
an explicitly empty result, `get_equation` does NOT cache it: the
second call for the same metric issues a further external
knowledge-source call (the call counter reaches 2), contrary to the
claim that a miss is cached and repeated misses do not re-query. -/
theorem C2_counterexample_empty_result_requeried :
    (getEquation detEqEmpty ⟨[], 0⟩ "NPV").2.llmCalls = 1 ∧
    (getEquation detEqEmpty (getEquation detEqEmpty ⟨[], 0⟩ "NPV").2
        "NPV").2.llmCalls = 2 :=
  ⟨rfl, rfl⟩

/-- C2 (amended): when the first resolution returns an equation with a
truthy formula — the only results `get_equation` caches — every
subsequent call for the same metric returns the cached equation
verbatim, with the registry state unchanged, hence with no further
external knowledge-source call. -/
theorem C2_cached_equation_reused_without_requery
    (determineEq : String → Option Equation) (st : RegState)
    (metric : String) (e : Equation)
    (h1 : List.lookup metric st.equations = none)
    (h2 : determineEq metric = some e)
    (h3 : formulaTruthy e.formula = true) :
    (getEquation determineEq st metric).1 = some e ∧
    getEquation determineEq (getEquation determineEq st metric).2 metric =
      (some e, (getEquation determineEq st metric).2) := by
  have hfirst : getEquation determineEq st metric =
      (some e, ⟨st.equations ++ [(metric, e)], st.llmCalls + 1⟩) := by
    simp [getEquation, h1, h2, h3]
  refine ⟨by rw [hfirst], ?_⟩
  rw [hfirst]
  simp [getEquation, lookup_append_of_none _ _ _ h1, List.lookup]

/-- C2 witness: the amended cache behaviour at the concrete LCOE
resolution. -/
theorem C2_cached_equation_reused_without_requery_witness :
    (getEquation detEqLcoe ⟨[], 0⟩ "LCOE").1 = some eqLcoe ∧
    getEquation detEqLcoe (getEquation detEqLcoe ⟨[], 0⟩ "LCOE").2 "LCOE" =
      (some eqLcoe, (getEquation detEqLcoe ⟨[], 0⟩ "LCOE").2) :=
  C2_cached_equation_reused_without_requery detEqLcoe ⟨[], 0⟩ "LCOE" eqLcoe
    rfl rfl rfl

/-- C3 counterexample: with an API key present, an empty cache, and a
knowledge source answering non-numeric text, `get_fallback_value`
returns `None` — an absent binding, not a numeric value — and caches
nothing, so an identical second call recomputes. -/
theorem C3_counterexample_fallback_returns_none :
    getFallbackValue (some "I do not know") ⟨true, []⟩ "DISCOUNT_RATE"
      noFilters = (none, ⟨true, []⟩) :=
  rfl

/-- C3 (amended): when the knowledge source yields a parseable number,
`get_fallback_value` caches it under the `(var, tech, country, year)`
key and a second call with the identical key returns the identical
value from the cache, regardless of the knowledge source (no
recomputation); when no parseable number is obtained it returns `None`
uncached (the caller falls through to `guess_reasonable_value`). -/
theorem C3_fallback_cached_when_numeric
    (completion completion2 : Option String) (st : LPState) (var : String)
    (f : Filters) (resp : String) (v : ℚ)
    (ha : st.apiKey = true)
    (hc : List.lookup (fallbackCacheKey var f) st.valueCache = none)
    (h1 : completion = some resp)
    (h2 : firstNumericValue (pyStrip resp).data = some v) :
    getFallbackValue completion st var f =
      (some v, ⟨st.apiKey, st.valueCache ++ [(fallbackCacheKey var f, v)]⟩) ∧
    getFallbackValue completion2
        ⟨st.apiKey, st.valueCache ++ [(fallbackCacheKey var f, v)]⟩ var f =
      (some v, ⟨st.apiKey, st.valueCache ++ [(fallbackCacheKey var f, v)]⟩) := by
  subst h1
  constructor
  · simp [getFallbackValue, ha, hc, h2]
  · simp [getFallbackValue, ha, lookup_append_of_none _ _ _ hc, List.lookup]

/-- C3 witness: a numeric response is cached and the second call is a
pure cache hit even when the knowledge source has become unavailable. -/
theorem C3_fallback_cached_when_numeric_witness :
    getFallbackValue (some " 42.5 MW ") ⟨true, []⟩ "CAPACITY_MW" noFilters =
      (some (mkRat 425 10),
       ⟨true, [(fallbackCacheKey "CAPACITY_MW" noFilters, mkRat 425 10)]⟩) ∧
    getFallbackValue none
        ⟨true, [(fallbackCacheKey "CAPACITY_MW" noFilters, mkRat 425 10)]⟩
        "CAPACITY_MW" noFilters =
      (some (mkRat 425 10),
       ⟨true, [(fallbackCacheKey "CAPACITY_MW" noFilters, mkRat 425 10)]⟩) :=
  C3_fallback_cached_when_numeric (some " 42.5 MW ") none ⟨true, []⟩
    "CAPACITY_MW" noFilters " 42.5 MW " (mkRat 425 10) rfl rfl rfl (by decide)

/-- C4: the claim requires the four-stage unit triage embedded → static
table → knowledge source (accepted under 20 characters) → unknown, in
that order.  The class defines `generate_unit` twice and the second
definition shadows the first, which contains the static table, so the
effective triage is embedded → knowledge source → "unknown": with the
LCOE equation cached without a unit and the knowledge source failing,
the effective method returns "unknown" where the shadowed static table
would return "USD/MWh"; and when the knowledge source answers, its
answer pre-empts the static table instead of following it. -/
theorem C4_static_unit_table_shadowed :
    (generateUnitV2 (fun _ => none) (fun _ => none) stLcoeNoUnit "LCOE").1 =
      "unknown" ∧
    (generateUnitV1 (fun _ => none) stLcoeNoUnit "LCOE").1 = "USD/MWh" ∧
    (generateUnitV2 (fun _ => none) (fun _ => some "EUR/MWh") stLcoeNoUnit
        "LCOE").1 = "EUR/MWh" :=
  ⟨rfl, rfl, rfl⟩

/-- C5: when the knowledge-source call raises or its response yields no
parseable number, `guess_reasonable_value` applies exactly the
name-pattern heuristic — CAPACITY and MW to 100.0, GENERATION and GWh
to 500.0, COST and kUSD to 1000.0, RATE to 0.08, otherwise 100.0 — and
caches the default. -/
theorem C5_heuristic_defaults
    (completion : Option String) (st : LPState) (var : String) (f : Filters)
    (ha : st.apiKey = true)
    (hc : List.lookup (guessCacheKey var f) st.valueCache = none)
    (hp : guessParsed completion = none) :
    guessReasonableValue completion st var f =
      (some (if strContains var "CAPACITY" && strContains var "MW" then (100 : ℚ)
        else if strContains var "GENERATION" && strContains var "GWh" then 500
        else if strContains var "COST" && strContains var "kUSD" then 1000
        else if strContains var "RATE" then mkRat 8 100
        else 100),
       ⟨st.apiKey, st.valueCache ++ [(guessCacheKey var f, heuristicDefault var)]⟩) := by
  simp [guessReasonableValue, ha, hc, hp, heuristicDefault]

/-- C5 witness: a required variable with no data and the non-numeric
response "I do not know" resolves a RATE-named variable to 0.08. -/
theorem C5_heuristic_defaults_witness :
    guessReasonableValue (some "I do not know") ⟨true, []⟩ "DISCOUNT_RATE"
      noFilters =
      (some (mkRat 8 100),
       ⟨true, [(guessCacheKey "DISCOUNT_RATE" noFilters, mkRat 8 100)]⟩) := by
  have h := C5_heuristic_defaults (some "I do not know") ⟨true, []⟩
    "DISCOUNT_RATE" noFilters rfl rfl (by decide)
  exact h.trans (by decide)

/-- C6 counterexample: a row storing the year as the string "2050"
matches neither the integer filter 2050 nor the string filter "2050"
(both are normalized to the integer comparison), although the same row
is returned once the year filter is absent — so the year filter does
not match rows stored under either representation. -/
theorem C6_counterexample_string_stored_year_unmatched :
    extractDataFromCsv techMapDefault countryMapDefault [rowGen2050]
      yearIntFilter "Generation" = [] ∧
    extractDataFromCsv techMapDefault countryMapDefault [rowGen2050]
      yearStrFilter "Generation" = [] ∧
    extractDataFromCsv techMapDefault countryMapDefault [rowGen2050]
      noFilters "Generation" =
      [⟨"systemgenerators.csv", "Generation", 100, "GWh", "Wind", "FR01_Wind",
        YearVal.str "2050"⟩] :=
  ⟨rfl, rfl, rfl⟩

/-- C6 (amended): the year filter tolerates both representations on the
FILTER side — an int-convertible string filter behaves exactly like the
integer filter — but rows are matched by equality against the
normalized integer, so only rows storing the year as an integer match
an int-convertible filter. -/
theorem C6_year_filter_normalizes_filter_side_only
    (s : String) (n : Int) (ds : YearVal)
    (hs : pyIntOfString s = some n) :
    yearMatches (some (YearVal.str s)) ds =
      yearMatches (some (YearVal.int n)) ds ∧
    yearMatches (some (YearVal.int n)) ds = (ds == YearVal.int n) := by
  constructor
  · simp [yearMatches, YearVal.toIntOpt, hs]
  · simp [yearMatches, YearVal.toIntOpt]

/-- C6 witness: the amended normalization at year 2050. -/
theorem C6_year_filter_normalizes_filter_side_only_witness :
    yearMatches (some (YearVal.str "2050")) (YearVal.int 2050) =
      yearMatches (some (YearVal.int 2050)) (YearVal.int 2050) ∧
    yearMatches (some (YearVal.int 2050)) (YearVal.int 2050) =
      (YearVal.int 2050 == YearVal.int 2050) :=
  C6_year_filter_normalizes_filter_side_only "2050" 2050 (YearVal.int 2050)
    (by decide)

/-- C7: for the capacity-factor metric, a numeric evaluation result
reaching the general evaluation path is multiplied by 100 exactly when
it is strictly below 1.0 and returned unchanged otherwise; the boundary
value 1.0 is not rescaled. -/
theorem C7_capacity_factor_percentage_scaling (r : ℚ) :
    evaluate (fun _ => none) (fun _ _ => some r) stCapacityFactor
      "CAPACITY_FACTOR" varsCapacityFactor =
      (some (if r < 1 then r * 100 else r), stCapacityFactor) ∧
    evaluate (fun _ => none) (fun _ _ => some (1 : ℚ)) stCapacityFactor
      "CAPACITY_FACTOR" varsCapacityFactor =
      (some 1, stCapacityFactor) :=
  ⟨rfl, rfl⟩

unseal Rat.mul in
/-- C7 witness: the fractional result 1/2 is scaled to 50. -/
theorem C7_capacity_factor_percentage_scaling_witness :
    evaluate (fun _ => none) (fun _ _ => some (mkRat 1 2)) stCapacityFactor
      "CAPACITY_FACTOR" varsCapacityFactor = (some 50, stCapacityFactor) :=
  ((C7_capacity_factor_percentage_scaling (mkRat 1 2)).1).trans (by decide)

/-- C8: citations are deduplicated by exactly the key (source,
property, tech, facility, year) with empty-string substitution for a
missing or null field: two citations equal on the key fields except
that one carries a (non-empty) facility and the other lacks it get
distinct keys and are both retained, while a citation differing from a
kept one only in non-key fields (value, unit) is dropped. -/
theorem C8_citation_dedup_key (c1 c2 c3 : Citation) (fa : String)
    (hs : c2.source = c1.source) (hp : c2.property = c1.property)
    (ht : c2.tech = c1.tech) (hy : c2.year = c1.year)
    (hf1 : c1.facility = some fa) (hfa : fa ≠ "") (hf2 : c2.facility = none)
    (hk : citationKey c3 = citationKey c1) :
    dedupCitations [c1, c2] = [c1, c2] ∧ dedupCitations [c1, c3] = [c1] := by
  have hne : ¬ citationKey c2 = citationKey c1 := by
    simp only [citationKey, hs, hp, ht, hy, hf1, hf2, List.cons.injEq]
    intro h
    exact hfa h.2.2.2.1.symm
  constructor
  · simp [dedupCitations, dedupGo, hne]
  · simp [dedupCitations, dedupGo, hk]

/-- C8 witness: concrete citation triple (facility present vs absent,
and a non-key-field variation). -/
theorem C8_citation_dedup_key_witness :
    dedupCitations [citA, citB] = [citA, citB] ∧
    dedupCitations [citA, citC] = [citA] :=
  C8_citation_dedup_key citA citB citC "FR01_Wind" rfl rfl rfl rfl rfl
    (by decide) rfl (by decide)

/-- C9 counterexample: in the legacy `Pipeline.answer_query`
aggregation, one row whose value cannot be coerced aborts the whole sum
(Python `TypeError` on the running total), so the other matching rows
are not aggregated. -/
theorem C9_counterexample_legacy_sum_aborts :
    legacySumValues [rowNum5, rowBad, rowNum7] = .error PyError.typeError :=
  rfl

/-- C9 (amended): in the enhanced pipeline's `_extract_data_from_csv`,
a row whose value fails numeric coercion is dropped (with a logged
warning) and contributes nothing — in particular it is not treated as
zero — while the aggregation of the other matching rows is exactly what
it would be without the offending row; the legacy pipeline instead sums
raw values and aborts on such a row. -/
theorem C9_non_coercible_row_dropped
    (techMap : List (String × List String))
    (countryMap : List (String × String)) (f : Filters) (p : String)
    (xs ys : List Row) (bad : Row)
    (hbad : bad.value.toFloat = none) :
    extractDataFromCsv techMap countryMap (xs ++ bad :: ys) f p =
      extractDataFromCsv techMap countryMap (xs ++ ys) f p := by
  unfold extractDataFromCsv
  rw [List.filter_append, List.filter_append, List.filter_cons]
  cases hm : rowMatches techMap countryMap f p bad
  · simp [hm]
  · simp only [hm, if_true, buildItems_append, buildItems_drop bad _ hbad]

/-- C9 witness: the extraction around a non-coercible row equals the
extraction without it. -/
theorem C9_non_coercible_row_dropped_witness :
    extractDataFromCsv techMapDefault countryMapDefault
      [rowNum5, rowBad, rowNum7] noFilters "Generation" =
    extractDataFromCsv techMapDefault countryMapDefault [rowNum5, rowNum7]
      noFilters "Generation" :=
  C9_non_coercible_row_dropped techMapDefault countryMapDefault noFilters
    "Generation" [rowNum5] [rowNum7] rowBad (by decide)

/-- C10: evaluating a metric whose lowercased name is `capacity_mw`
bypasses equation resolution entirely: for every knowledge source,
sympy engine and registry state the result is the value of the first
bound variable whose name contains "capacity" or "generator"
case-insensitively, or the constant 500.0 when none is bound, and the
registry state (including its external-call counter) is unchanged. -/
theorem C10_capacity_mw_bypasses_equations
    (determineEq : String → Option Equation)
    (sympyEval : String → List (String × ℚ) → Option ℚ)
    (st : RegState) (metric : String) (vars : List (String × ℚ))
    (hm : pyLower metric = "capacity_mw") :
    evaluate determineEq sympyEval st metric vars =
      (some (match vars.find? (fun kv =>
          strContains (pyLower kv.1) "capacity" ||
          strContains (pyLower kv.1) "generator") with
        | some kv => kv.2
        | none => (500 : ℚ)), st) := by
  unfold evaluate
  rw [hm]
  cases hfind : vars.find? (fun kv =>
      strContains (pyLower kv.1) "capacity" ||
      strContains (pyLower kv.1) "generator") <;>
    simp [hfind]

/-- C10 witness: the bypass at a generator-named binding and at an
empty binding. -/
theorem C10_capacity_mw_bypasses_equations_witness :
    evaluate (fun _ => none) (fun _ _ => none) ⟨[], 0⟩ "CAPACITY_MW"
      [("GENERATOR_1_CAPACITY", (42 : ℚ))] = (some 42, ⟨[], 0⟩) ∧
    evaluate (fun _ => none) (fun _ _ => none) ⟨[], 0⟩ "CAPACITY_MW" [] =
      (some 500, ⟨[], 0⟩) :=
  ⟨(C10_capacity_mw_bypasses_equations (fun _ => none) (fun _ _ => none)
      ⟨[], 0⟩ "CAPACITY_MW" [("GENERATOR_1_CAPACITY", (42 : ℚ))]
      (by decide)).trans (by decide),
   (C10_capacity_mw_bypasses_equations (fun _ => none) (fun _ _ => none)
      ⟨[], 0⟩ "CAPACITY_MW" [] (by decide)).trans (by decide)⟩

end NFG

